import Mathlib

/-!
Shallow embedding of `src/app.py` (FastHTML AppImage demo application).

The embedding models:
- the HTML fragments the handlers build (`Node`), keeping the text content
  and `id` attributes the handlers set (presentational `hx-*`/`style`
  attributes and external stylesheet/script headers are not modelled);
- the process environment as a partial map `Env`, with Python's
  `os.environ.get` and its truthiness test;
- module-level startup logic: port resolution (`PORT`) and working-directory
  setup (`WORK_DIR` / `os.chdir`); the operating system's socket and
  `mkdtemp` behaviour is passed in as explicit parameters (`OSNet`, the
  `freshTemp` argument), with the OS guarantees stated as hypotheses;
- the mutable demo state (`todos`, `counter`) as an explicit `AppState`
  threaded through the request handlers;
- the `open_browser` routine as a trace-producing function: the console
  prints, `subprocess.Popen` attempts and `webbrowser.open` call it makes,
  together with whether it returns normally or lets an exception escape.
-/

namespace FastHTMLApp

/-- HTML nodes produced by the handlers in `app.py`. `idAttr` is the `id=`
attribute when one is set.  `li` takes an `Option String` because the index
page contains `Li(... if ... else None)`, i.e. a `Li(None)`. -/
inductive Node : Type
  | div (children : List Node) (idAttr : Option String)
  | h1 (text : String)
  | h2 (text : String)
  | p (text : String)
  | hr
  | span (text : String) (idAttr : Option String)
  | button (label : String)
  | ul (children : List Node) (idAttr : Option String)
  | li (text : Option String)
  | form (children : List Node)
  | input (nameAttr : String)

/-- The children of a `ul` node (used to state membership of rendered lines). -/
def Node.ulChildren : Node → List Node
  | Node.ul cs _ => cs
  | _ => []

/-- The process environment: a partial map from variable names to values. -/
def Env : Type := String → Option String

/-- Python `os.environ.get(key, dflt)`. -/
def envGet (env : Env) (key dflt : String) : String :=
  (env key).getD dflt

/-- Python truthiness of `os.environ.get(key)`: the variable is present and
its value is a non-empty string. -/
def envTruthy (env : Env) (key : String) : Bool :=
  match env key with
  | some v => v ≠ ""
  | none => false

/-! ### Port resolution (`find_free_port`, `PORT_ENV`, `PORT`) -/

/-- Abstraction of the host's TCP state at resolution time: the set of ports
already bound by listeners, and the ephemeral port the OS assigns when a
probe socket binds to port 0 (`s.bind(('', 0)); s.getsockname()[1]`). -/
structure OSNet where
  boundPorts : List Nat
  ephemeral : Nat

/-- `find_free_port()`: bind a probe socket to port 0, read back the
OS-assigned port, close the socket.  In the embedding the OS's assignment is
the `ephemeral` field of the `OSNet` parameter. -/
def find_free_port (os : OSNet) : Nat := os.ephemeral

/-- Decimal value of a digit string, most significant digit first. -/
def decimalValue (l : List Char) : Nat :=
  l.foldl (fun a c => 10 * a + (c.toNat - 48)) 0

/-- Python `int(s)` on canonical integer literals: an optional sign followed
by one or more decimal digits.  Returns `none` when the string is not of
this form (the program then fails at startup). -/
def pyInt (s : String) : Option Int :=
  match s.data with
  | [] => none
  | c :: rest =>
      if c = '-' then
        if rest ≠ [] ∧ rest.all Char.isDigit then some (-(decimalValue rest : Int)) else none
      else if c = '+' then
        if rest ≠ [] ∧ rest.all Char.isDigit then some (decimalValue rest : Int) else none
      else
        if (c :: rest).all Char.isDigit then some (decimalValue (c :: rest) : Int) else none

/-- `PORT_ENV = os.environ.get('FASTHTML_PORT', '0')`. -/
def PORT_ENV (env : Env) : String := envGet env "FASTHTML_PORT" "0"

/-- `PORT = int(PORT_ENV) if PORT_ENV != '0' else find_free_port()`.
`none` models the `int()` parse failure crashing startup. -/
def resolvePort (env : Env) (os : OSNet) : Option Int :=
  if PORT_ENV env ≠ "0" then pyInt (PORT_ENV env) else some (find_free_port os : Int)

/-! ### Working-directory setup (`WORK_DIR`) -/

/-- Result of the startup working-directory logic: the module constant
`WORK_DIR` and the process's current directory after the block runs. -/
structure StartupDirs where
  workDir : String
  cwd : String

/-- Lines 32–38 of `app.py`: if `os.environ.get('APPIMAGE')` is truthy,
`WORK_DIR = Path(tempfile.mkdtemp(prefix='fasthtml-app-'))` and
`os.chdir(WORK_DIR)`; otherwise `WORK_DIR = Path.cwd()`.  `origCwd` is the
current directory on entry and `freshTemp` the directory `mkdtemp` creates
(its uniqueness is an OS guarantee, stated as a hypothesis where needed). -/
def setupWorkDir (env : Env) (origCwd freshTemp : String) : StartupDirs :=
  if envTruthy env "APPIMAGE" then
    { workDir := freshTemp, cwd := freshTemp }
  else
    { workDir := origCwd, cwd := origCwd }

/-! ### Demo state and request handlers -/

/-- The module-level mutable demo state: `todos = []`, `counter = 0`. -/
structure AppState where
  counter : Int
  todos : List String

/-- The state at process start. -/
def initState : AppState := { counter := 0, todos := [] }

/-- `POST /increment`: `counter += 1`, return
`Span(f"Count: {counter}", id="counter")`. -/
def increment (s : AppState) : AppState × Node :=
  let c := s.counter + 1
  ({ s with counter := c }, Node.span ("Count: " ++ toString c) (some "counter"))

/-- `POST /add-todo`: `todos.append(task)`, return
`Ul(*[Li(todo) for todo in todos], id="todo-list")`. -/
def add_todo (s : AppState) (task : String) : AppState × Node :=
  let ts := s.todos ++ [task]
  ({ s with todos := ts }, Node.ul (ts.map (fun t => Node.li (some t))) (some "todo-list"))

/-- Ambient process facts a handler can observe at call time.  `workDir` is
the startup module constant `WORK_DIR`; `cwd` is what `os.getcwd()` returns
at call time; `now` is the formatted `datetime.now()`. -/
structure Ambient where
  env : Env
  workDir : String
  cwd : String
  pid : Nat
  now : String
  osName : String
  osRelease : String
  pyVersion : String
  host : String
  port : Int

/-- The `info_list` built by the `/system-info` handler: in AppImage mode the
working-directory line shows the module constant `WORK_DIR`; otherwise it
shows `os.getcwd()`. -/
def info_list (env : Env) (workDir cwd : String) (pid : Nat) (now : String) : Node :=
  if envTruthy env "APPIMAGE" then
    Node.ul
      [ Node.li (some ("Process ID: " ++ toString pid)),
        Node.li (some ("Working Directory: " ++ workDir)),
        Node.li (some "AppImage: Yes"),
        Node.li (some ("Timestamp: " ++ now)) ] none
  else
    Node.ul
      [ Node.li (some ("Process ID: " ++ toString pid)),
        Node.li (some ("Working Directory: " ++ cwd)),
        Node.li (some "AppImage: No"),
        Node.li (some ("Timestamp: " ++ now)) ] none

/-- `GET /system-info`: wrap `info_list` in the refreshable `Div`. -/
def system_info (env : Env) (workDir cwd : String) (pid : Nat) (now : String) : Node :=
  Node.div
    [ Node.h2 "System Information",
      info_list env workDir cwd pid now,
      Node.button "Refresh" ] (some "system-info")

/-- The system-information section of the index page (lines 90–109): note its
non-AppImage branch contains a `Li(None)` for the `Temp Directory` line. -/
def indexSystemInfo (amb : Ambient) : Node :=
  Node.div
    [ Node.h2 "System Information",
      (if envTruthy amb.env "APPIMAGE" then
        Node.ul
          [ Node.li (some ("Process ID: " ++ toString amb.pid)),
            Node.li (some ("Working Directory: " ++ amb.workDir)),
            Node.li (some "AppImage: Yes"),
            Node.li (some ("Timestamp: " ++ amb.now)) ] none
      else
        Node.ul
          [ Node.li (some ("Process ID: " ++ toString amb.pid)),
            Node.li (some ("Working Directory: " ++ amb.cwd)),
            Node.li none,
            Node.li (some "AppImage: No"),
            Node.li (some ("Timestamp: " ++ amb.now)) ] none),
      Node.button "Refresh" ] (some "system-info")

/-- `GET /`: the full index page. -/
def indexPage (amb : Ambient) (s : AppState) : Node :=
  Node.div
    [ Node.h1 "FastHTML AppImage Demo",
      Node.p ("Running on " ++ amb.osName ++ " " ++ amb.osRelease),
      Node.p ("Python " ++ amb.pyVersion ++ " | Server: " ++ amb.host ++ ":" ++ toString amb.port),
      Node.hr,
      Node.div
        [ Node.h2 "Counter Demo",
          Node.div
            [ Node.button "Increment",
              Node.span ("Count: " ++ toString s.counter) (some "counter") ] none ] none,
      Node.hr,
      Node.div
        [ Node.h2 "Todo List Demo",
          Node.form [ Node.input "task", Node.button "Add Task" ],
          Node.ul (s.todos.map (fun t => Node.li (some t))) (some "todo-list") ] none,
      Node.hr,
      indexSystemInfo amb,
      Node.hr,
      Node.div
        [ Node.h2 "Launch Options",
          Node.p "You can configure how this app opens:",
          Node.ul
            [ Node.li (some "Set FASTHTML_BROWSER=app for standalone window mode"),
              Node.li (some "Set FASTHTML_BROWSER=none to not open browser automatically"),
              Node.li (some "Default: Opens in your default browser") ] none ] none ] none

/-- The four routes of the application. -/
inductive Request : Type
  | index
  | incrementReq
  | addTodoReq (task : String)
  | systemInfoReq
  deriving DecidableEq

/-- Dispatch one request: the state transition and the rendered fragment. -/
def handle (amb : Ambient) (s : AppState) : Request → AppState × Node
  | Request.index => (s, indexPage amb s)
  | Request.incrementReq => increment s
  | Request.addTodoReq task => add_todo s task
  | Request.systemInfoReq =>
      (s, system_info amb.env amb.workDir amb.cwd amb.pid amb.now)

/-- Run a sequence of requests, threading the demo state. -/
def runRequests (amb : Ambient) (reqs : List Request) (s : AppState) : AppState :=
  reqs.foldl (fun s r => (handle amb s r).1) s

/-! ### Browser launcher (`open_browser`) -/

/-- Outcome of one `subprocess.Popen(browser_cmd, ...)` call: the process
spawned, or the call raised `FileNotFoundError`, or it raised some other
exception. -/
inductive SpawnResult : Type
  | ok
  | fileNotFound
  | otherError (msg : String)
  deriving DecidableEq

/-- Observable steps `open_browser` performs: console prints, `Popen`
attempts (`trySpawn`), and the `webbrowser.open(url)` call. -/
inductive Action : Type
  | printLine (s : String)
  | trySpawn (cmd : List String)
  | webbrowserOpen (url : String)
  deriving DecidableEq

/-- Whether `open_browser` returned normally or let an exception escape. -/
inductive Outcome : Type
  | returned
  | raised (msg : String)
  deriving DecidableEq

/-- Python `str.lower()` as used on the `FASTHTML_BROWSER` value: lower-case
every character (the mode strings compared against are ASCII). -/
def pyLower (s : String) : String := String.mk (s.data.map Char.toLower)

/-- The Linux app-mode candidate list (lines 177–181). -/
def browsers (url : String) : List (List String) :=
  [ ["google-chrome", "--app=" ++ url],
    ["chromium", "--app=" ++ url],
    ["firefox", "--new-window", url] ]

/-- Result of the `for browser_cmd in browsers` loop: a candidate spawned and
the function returned, or every candidate raised `FileNotFoundError` and the
loop fell through, or a candidate raised some other exception which escapes. -/
inductive LoopResult : Type
  | launched
  | exhausted
  | raised (msg : String)
  deriving DecidableEq

/-- Lines 183–190: try each candidate; on success return; on
`FileNotFoundError` continue; any other exception propagates.  `sp` gives the
host's response to each `Popen` call.  Returns the attempts made and how the
loop ended. -/
def tryBrowsers (sp : List String → SpawnResult) :
    List (List String) → List Action × LoopResult
  | [] => ([], LoopResult.exhausted)
  | cmd :: rest =>
      match sp cmd with
      | SpawnResult.ok => ([Action.trySpawn cmd], LoopResult.launched)
      | SpawnResult.fileNotFound =>
          let r := tryBrowsers sp rest
          (Action.trySpawn cmd :: r.1, r.2)
      | SpawnResult.otherError msg => ([Action.trySpawn cmd], LoopResult.raised msg)

/-- `open_browser(url)` (lines 162–194).  `platform` is `sys.platform`,
`sp` the host's response to each spawn attempt.  Produces the trace of
actions and whether the call returned normally. -/
def open_browser (env : Env) (platform : String) (sp : List String → SpawnResult)
    (url : String) : List Action × Outcome :=
  let browser_mode := pyLower (envGet env "FASTHTML_BROWSER" "default")
  if browser_mode = "none" then
    ([ Action.printLine ("Server running at " ++ url),
       Action.printLine "Browser auto-open disabled. Please open manually." ],
     Outcome.returned)
  else
    let appPart : List Action × Option Outcome :=
      if browser_mode = "app" then
        let hdr := [Action.printLine ("Opening in app mode at " ++ url)]
        if platform = "linux" then
          match tryBrowsers sp (browsers url) with
          | (as, LoopResult.launched) => (hdr ++ as, some Outcome.returned)
          | (as, LoopResult.exhausted) => (hdr ++ as, none)
          | (as, LoopResult.raised msg) => (hdr ++ as, some (Outcome.raised msg))
        else (hdr, none)
      else ([], none)
    match appPart with
    | (as, some o) => (as, o)
    | (as, none) =>
        (as ++ [ Action.printLine ("Opening in browser at " ++ url),
                 Action.webbrowserOpen url ],
         Outcome.returned)

/-! ### Helper functions for the theorems -/

/-- Run a sequence of `add_todo` calls, threading the demo state. -/
def runAddTodos (tasks : List String) (s : AppState) : AppState :=
  tasks.foldl (fun s t => (add_todo s t).1) s

/-- A concrete ambient state used by witnesses. -/
def amb0 : Ambient :=
  { env := fun _ => none, workDir := "/srv/app", cwd := "/srv/app", pid := 1,
    now := "2026-10-12 00:00:00", osName := "Linux", osRelease := "6.1",
    pyVersion := "3.12.0", host := "127.0.0.1", port := 8000 }

/-! ### Lemmas -/

lemma counter_runRequests_incr (amb : Ambient) :
    ∀ (N : Nat) (s : AppState),
      (runRequests amb (List.replicate N Request.incrementReq) s).counter
        = s.counter + N := by
  intro N
  induction N with
  | zero => intro s; simp [runRequests]
  | succ n ih =>
      intro s
      have h : List.replicate (n + 1) Request.incrementReq
          = Request.incrementReq :: List.replicate n Request.incrementReq :=
        List.replicate_succ _ _
      rw [runRequests, h, List.foldl_cons]
      have := ih ((handle amb s Request.incrementReq).1)
      rw [runRequests] at this
      rw [this]
      simp [handle, increment]
      ring

lemma todos_runAddTodos :
    ∀ (tasks : List String) (s : AppState),
      (runAddTodos tasks s).todos = s.todos ++ tasks := by
  intro tasks
  induction tasks with
  | nil => intro s; simp [runAddTodos]
  | cons t ts ih =>
      intro s
      rw [runAddTodos, List.foldl_cons]
      have := ih ((add_todo s t).1)
      rw [runAddTodos] at this
      rw [this]
      simp [add_todo]

lemma counter_handle_step (amb : Ambient) (s : AppState) (req : Request)
    (h : 0 ≤ s.counter) : 0 ≤ ((handle amb s req).1).counter := by
  cases req with
  | index => exact h
  | incrementReq =>
      have : ((handle amb s Request.incrementReq).1).counter = s.counter + 1 := rfl
      rw [this]; omega
  | addTodoReq task => exact h
  | systemInfoReq => exact h

lemma counter_runRequests_nonneg (amb : Ambient) :
    ∀ (reqs : List Request) (s : AppState),
      0 ≤ s.counter → 0 ≤ (runRequests amb reqs s).counter := by
  intro reqs
  induction reqs with
  | nil => intro s h; exact h
  | cons r rs ih =>
      intro s h
      rw [runRequests, List.foldl_cons]
      exact ih _ (counter_handle_step amb s r h)

/-! ### Claims -/

/-- C1: starting from the initial Counter value zero, a sequence of N calls
to `/increment` leaves the Counter equal to N, and each individual call adds
exactly one and returns a `span#counter` fragment displaying the new Counter
value. -/
theorem C1_increment_sequence :
    (∀ (amb : Ambient) (N : Nat),
        (runRequests amb (List.replicate N Request.incrementReq) initState).counter = N) ∧
    (∀ s : AppState,
        ((increment s).1).counter = s.counter + 1 ∧
        (increment s).2
          = Node.span ("Count: " ++ toString (s.counter + 1)) (some "counter")) := by
  constructor
  · intro amb N
    rw [counter_runRequests_incr amb N initState]
    simp [initState]
  · intro s
    exact ⟨rfl, rfl⟩

/-- C2: for every sequence of task strings passed to `/add-todo` (including
empty strings), the resulting Task List is exactly that sequence — same
length, insertion order, each string verbatim — and each call returns the
full updated list rendered as `ul#todo-list`. -/
theorem C2_add_task_sequence :
    (∀ tasks : List String,
        (runAddTodos tasks initState).todos = tasks ∧
        (runAddTodos tasks initState).todos.length = tasks.length) ∧
    (∀ (s : AppState) (task : String),
        ((add_todo s task).1).todos = s.todos ++ [task] ∧
        (add_todo s task).2
          = Node.ul ((s.todos ++ [task]).map (fun t => Node.li (some t)))
              (some "todo-list")) := by
  constructor
  · intro tasks
    have h := todos_runAddTodos tasks initState
    rw [h]
    simp [initState]
  · intro s task
    exact ⟨rfl, rfl⟩

/-- C9: the Counter starts at zero, `/increment` changes it by exactly one,
no other request handler modifies it, and `0 ≤ counter` is preserved by every
sequence of requests. -/
theorem C9_counter_invariant :
    initState.counter = 0 ∧
    (∀ s : AppState, ((increment s).1).counter = s.counter + 1) ∧
    (∀ (amb : Ambient) (s : AppState) (req : Request),
        req ≠ Request.incrementReq → ((handle amb s req).1).counter = s.counter) ∧
    (∀ (amb : Ambient) (reqs : List Request),
        0 ≤ (runRequests amb reqs initState).counter) := by
  refine ⟨rfl, fun s => rfl, ?_, ?_⟩
  · intro amb s req h
    cases req with
    | index => rfl
    | incrementReq => exact absurd rfl h
    | addTodoReq task => rfl
    | systemInfoReq => rfl
  · intro amb reqs
    exact counter_runRequests_nonneg amb reqs initState (by simp [initState])

/-- Witness for C9: at a concrete non-increment request the Counter stays 0. -/
theorem C9_counter_invariant_witness :
    ((handle amb0 initState Request.systemInfoReq).1).counter = 0 := by
  have h := C9_counter_invariant.2.2.1 amb0 initState Request.systemInfoReq (by decide)
  rw [h]; rfl

/-! ### C3: port resolution -/

lemma pyInt_digits (s : String) (hne : s.data ≠ [])
    (hdig : s.data.all Char.isDigit) :
    pyInt s = some (decimalValue s.data : Int) := by
  rcases hd : s.data with _ | ⟨c, rest⟩
  · exact absurd hd hne
  · have hcd : c.isDigit := by
      rw [hd] at hdig
      simpa using (List.all_eq_true.mp hdig c (by simp))
    have hm : c ≠ '-' := by
      intro h; rw [h] at hcd; exact absurd hcd (by decide)
    have hp : c ≠ '+' := by
      intro h; rw [h] at hcd; exact absurd hcd (by decide)
    rw [hd] at hdig
    simp [pyInt, hd, hm, hp, hdig]

lemma pyInt_neg_digits (t : String) (hne : t.data ≠ [])
    (hdig : t.data.all Char.isDigit) :
    pyInt ("-" ++ t) = some (-(decimalValue t.data : Int)) := by
  have hd : ("-" ++ t).data = '-' :: t.data := by
    rw [String.data_append]; rfl
  simp [pyInt, hd, hne, hdig]

/-- C3: when `FASTHTML_PORT` holds a non-`"0"` integer string the resolved
port is exactly that integer; when it is `"0"` or absent, the resolved port
is the one the OS assigns to the transient probe socket (`find_free_port`),
which — by the OS contract, stated as hypothesis `hfree` — is not already
bound by another listener at resolution time. -/
theorem C3_port_resolution (env : Env) (os : OSNet)
    (hfree : os.ephemeral ∉ os.boundPorts) :
    (∀ s : String, env "FASTHTML_PORT" = some s → s ≠ "0" →
        s.data ≠ [] → s.data.all Char.isDigit →
        resolvePort env os = some (decimalValue s.data : Int)) ∧
    (∀ t : String, env "FASTHTML_PORT" = some ("-" ++ t) →
        t.data ≠ [] → t.data.all Char.isDigit →
        resolvePort env os = some (-(decimalValue t.data : Int))) ∧
    ((env "FASTHTML_PORT" = some "0" ∨ env "FASTHTML_PORT" = none) →
        ∃ p : Nat, resolvePort env os = some (p : Int) ∧
          p = find_free_port os ∧ p ∉ os.boundPorts) := by
  refine ⟨?_, ?_, ?_⟩
  · intro s hs hs0 hne hdig
    rw [resolvePort]
    have hpe : PORT_ENV env = s := by simp [PORT_ENV, envGet, hs]
    rw [hpe, if_pos hs0]
    exact pyInt_digits s hne hdig
  · intro t ht hne hdig
    rw [resolvePort]
    have hpe : PORT_ENV env = "-" ++ t := by simp [PORT_ENV, envGet, ht]
    have hs0 : ("-" ++ t : String) ≠ "0" := by
      intro h
      have : ("-" ++ t).data = ("0" : String).data := by rw [h]
      rw [String.data_append] at this
      simp at this
    rw [hpe, if_pos hs0]
    exact pyInt_neg_digits t hne hdig
  · intro h
    refine ⟨os.ephemeral, ?_, rfl, hfree⟩
    have hpe : PORT_ENV env = "0" := by
      cases h with
      | inl h => simp [PORT_ENV, envGet, h]
      | inr h => simp [PORT_ENV, envGet, h]
    rw [resolvePort, hpe]
    simp [find_free_port]

/-- A concrete environment with `FASTHTML_PORT=5000`. -/
def env5000 : Env := fun k => if k = "FASTHTML_PORT" then some "5000" else none

/-- A concrete empty environment. -/
def envEmpty : Env := fun _ => none

/-- A concrete host network state: port 8080 bound, ephemeral pick 49152. -/
def os1 : OSNet := { boundPorts := [8080], ephemeral := 49152 }

/-- Witness for C3: `FASTHTML_PORT=5000` resolves to exactly 5000, and with
the variable absent the resolved port is the probe result 49152, unbound. -/
theorem C3_port_resolution_witness :
    resolvePort env5000 os1 = some 5000 ∧
    resolvePort envEmpty os1 = some 49152 ∧ 49152 ∉ os1.boundPorts := by
  refine ⟨?_, ?_, by decide⟩
  · have h := (C3_port_resolution env5000 os1 (by decide)).1 "5000" rfl
      (by decide) (by decide) (by decide)
    rw [h]; rfl
  · obtain ⟨p, hp, hpe, _⟩ :=
      (C3_port_resolution envEmpty os1 (by decide)).2.2 (Or.inr rfl)
    have e : p = 49152 := hpe
    rw [e] at hp
    exact hp

/-! ### C4: working-directory relocation -/

/-- An environment where `APPIMAGE` is present but empty. -/
def envEmptyMarker : Env := fun k => if k = "APPIMAGE" then some "" else none

/-- An environment where `APPIMAGE` is set to a bundle path. -/
def envAppImage : Env := fun k => if k = "APPIMAGE" then some "/opt/Demo.AppImage" else none

/-- Counterexample to C4 as stated: with the `APPIMAGE` variable *present*
but holding the empty string, `os.environ.get('APPIMAGE')` is falsy, so the
working directory stays the original one instead of a fresh temp directory. -/
theorem C4_startup_workdir_counterexample :
    envEmptyMarker "APPIMAGE" ≠ none ∧
    (setupWorkDir envEmptyMarker "/home/user" "/tmp/fasthtml-app-x7").cwd = "/home/user" ∧
    (setupWorkDir envEmptyMarker "/home/user" "/tmp/fasthtml-app-x7").cwd
      ≠ "/tmp/fasthtml-app-x7" := by
  refine ⟨by simp [envEmptyMarker], rfl, by decide⟩

/-- C4 (amended): if the `APPIMAGE` marker is present *with a non-empty
value*, the working directory after startup is the freshly created temp
directory — distinct from the original directory whenever `mkdtemp`'s
freshness guarantee holds; if the marker is absent (or present but empty),
the working directory is left unchanged. -/
theorem C4_startup_workdir (env : Env) (orig fresh : String) :
    (envTruthy env "APPIMAGE" = true →
        (setupWorkDir env orig fresh).cwd = fresh ∧
        (setupWorkDir env orig fresh).workDir = fresh ∧
        (fresh ≠ orig → (setupWorkDir env orig fresh).cwd ≠ orig)) ∧
    (envTruthy env "APPIMAGE" = false →
        (setupWorkDir env orig fresh).cwd = orig ∧
        (setupWorkDir env orig fresh).workDir = orig) := by
  constructor
  · intro h
    have e : setupWorkDir env orig fresh = { workDir := fresh, cwd := fresh } := by
      simp [setupWorkDir, h]
    rw [e]
    exact ⟨rfl, rfl, fun hf => hf⟩
  · intro h
    have e : setupWorkDir env orig fresh = { workDir := orig, cwd := orig } := by
      simp [setupWorkDir, h]
    rw [e]
    exact ⟨rfl, rfl⟩

/-- Witness for C4 (amended) at concrete environments. -/
theorem C4_startup_workdir_witness :
    (setupWorkDir envAppImage "/home/user" "/tmp/fasthtml-app-x7").cwd
      = "/tmp/fasthtml-app-x7" ∧
    (setupWorkDir envEmpty "/home/user" "/tmp/fasthtml-app-x7").cwd = "/home/user" := by
  constructor
  · exact ((C4_startup_workdir envAppImage "/home/user" "/tmp/fasthtml-app-x7").1
      (by decide)).1
  · exact ((C4_startup_workdir envEmpty "/home/user" "/tmp/fasthtml-app-x7").2
      (by decide)).1

/-! ### C5: freshness of the system-info snapshot -/

/-- Counterexample to C5 as stated: in packaged mode the `/system-info`
output is *independent of the call-time current working directory* — it
shows the startup-cached `WORK_DIR` value instead of recomputing the fact
fresh. -/
theorem C5_system_info_counterexample :
    system_info envAppImage "/tmp/fasthtml-app-abc" "/home/user" 42 "2026-10-12 09:00:00"
      = system_info envAppImage "/tmp/fasthtml-app-abc" "/somewhere/else" 42
          "2026-10-12 09:00:00" ∧
    info_list envAppImage "/tmp/fasthtml-app-abc" "/home/user" 42 "2026-10-12 09:00:00"
      = Node.ul
          [ Node.li (some "Process ID: 42"),
            Node.li (some "Working Directory: /tmp/fasthtml-app-abc"),
            Node.li (some "AppImage: Yes"),
            Node.li (some "Timestamp: 2026-10-12 09:00:00") ] none ∧
    ("/home/user" : String) ≠ "/tmp/fasthtml-app-abc" :=
  ⟨rfl, rfl, by decide⟩

/-- C5 (amended): `/system-info` computes the process id, packaged-mode flag
and timestamp from the call-time facts on every call, and in non-packaged
mode also the working directory (the output is then independent of the
cached `WORK_DIR`); in packaged mode, however, the working-directory line
shows the startup-cached `WORK_DIR`, and the output is independent of the
call-time current directory. -/
theorem C5_system_info_freshness (env : Env) (wd cwd : String) (pid : Nat)
    (now : String) :
    (envTruthy env "APPIMAGE" = true →
        info_list env wd cwd pid now
          = Node.ul
              [ Node.li (some ("Process ID: " ++ toString pid)),
                Node.li (some ("Working Directory: " ++ wd)),
                Node.li (some "AppImage: Yes"),
                Node.li (some ("Timestamp: " ++ now)) ] none ∧
        (∀ cwd' : String, info_list env wd cwd' pid now = info_list env wd cwd pid now)) ∧
    (envTruthy env "APPIMAGE" = false →
        info_list env wd cwd pid now
          = Node.ul
              [ Node.li (some ("Process ID: " ++ toString pid)),
                Node.li (some ("Working Directory: " ++ cwd)),
                Node.li (some "AppImage: No"),
                Node.li (some ("Timestamp: " ++ now)) ] none ∧
        (∀ wd' : String, info_list env wd' cwd pid now = info_list env wd cwd pid now)) := by
  constructor
  · intro h
    constructor
    · simp [info_list, h]
    · intro cwd'; simp [info_list, h]
  · intro h
    constructor
    · simp [info_list, h]
    · intro wd'; simp [info_list, h]

/-- Witness for C5 (amended) at concrete call-time facts. -/
theorem C5_system_info_freshness_witness :
    info_list envAppImage "/tmp/a" "/x" 7 "ts" = info_list envAppImage "/tmp/a" "/home/u" 7 "ts" ∧
    info_list envEmpty "/y" "/home/u" 7 "ts" = info_list envEmpty "/tmp/a" "/home/u" 7 "ts" := by
  constructor
  · exact ((C5_system_info_freshness envAppImage "/tmp/a" "/home/u" 7 "ts").1
      (by decide)).2 "/x"
  · exact ((C5_system_info_freshness envEmpty "/tmp/a" "/home/u" 7 "ts").2
      (by decide)).2 "/y"

/-! ### C6–C8, C10: the browser launcher -/

/-- Environment with `FASTHTML_BROWSER=app`. -/
def envApp : Env := fun k => if k = "FASTHTML_BROWSER" then some "app" else none

/-- Environment with `FASTHTML_BROWSER=none`. -/
def envNoneVar : Env := fun k => if k = "FASTHTML_BROWSER" then some "none" else none

/-- Environment with `FASTHTML_BROWSER=NONE` (upper case). -/
def envNONE : Env := fun k => if k = "FASTHTML_BROWSER" then some "NONE" else none

/-- A host on which no candidate browser executable exists. -/
def spNotFound : List String → SpawnResult := fun _ => SpawnResult.fileNotFound

/-- A host on which every spawn raises a non-`FileNotFoundError` exception. -/
def spBoom : List String → SpawnResult := fun _ => SpawnResult.otherError "PermissionError"

/-- A concrete server URL. -/
def urlC : String := "http://127.0.0.1:8000"

lemma tryBrowsers_no_raise (sp : List String → SpawnResult)
    (h : ∀ (cmd : List String) (m : String), sp cmd ≠ SpawnResult.otherError m) :
    ∀ cs : List (List String),
      (tryBrowsers sp cs).2 = LoopResult.launched ∨
      (tryBrowsers sp cs).2 = LoopResult.exhausted := by
  intro cs
  induction cs with
  | nil => right; rfl
  | cons c rest ih =>
      rcases hsp : sp c with _ | _ | m
      · left; simp [tryBrowsers, hsp]
      · simpa [tryBrowsers, hsp] using ih
      · exact absurd hsp (h c m)

lemma tryBrowsers_all_fnf (sp : List String → SpawnResult) :
    ∀ cs : List (List String), (∀ cmd ∈ cs, sp cmd = SpawnResult.fileNotFound) →
      tryBrowsers sp cs = (cs.map Action.trySpawn, LoopResult.exhausted) := by
  intro cs
  induction cs with
  | nil => intro _; rfl
  | cons c rest ih =>
      intro h
      have hc : sp c = SpawnResult.fileNotFound := h c (by simp)
      have hr := ih (fun cmd hm => h cmd (by simp [hm]))
      simp [tryBrowsers, hc, hr]

/-- Counterexample to C6 as stated: only `FileNotFoundError` is caught, so a
candidate spawn failing with any other exception (here a `PermissionError`)
propagates out of `open_browser` instead of being swallowed. -/
theorem C6_spawn_failures_counterexample :
    (open_browser envApp "linux" spBoom urlC).2 = Outcome.raised "PermissionError" ∧
    Action.webbrowserOpen urlC ∉ (open_browser envApp "linux" spBoom urlC).1 := by
  exact ⟨by decide, by decide⟩

/-- C6 (amended): per-candidate `FileNotFoundError` spawn failures are fully
swallowed — whenever no candidate spawn raises an exception other than
`FileNotFoundError`, the launcher returns normally — and when every
candidate fails with `FileNotFoundError` the launcher degrades to printing
the URL and falling back to the default browser; any other spawn exception
propagates out of the launcher. -/
theorem C6_spawn_failures (env : Env) (plat : String)
    (sp : List String → SpawnResult) (url : String) :
    ((∀ (cmd : List String) (m : String), sp cmd ≠ SpawnResult.otherError m) →
        (open_browser env plat sp url).2 = Outcome.returned) ∧
    ((∀ cmd ∈ browsers url, sp cmd = SpawnResult.fileNotFound) →
        pyLower (envGet env "FASTHTML_BROWSER" "default") = "app" → plat = "linux" →
        (open_browser env plat sp url).2 = Outcome.returned ∧
        Action.printLine ("Opening in browser at " ++ url)
          ∈ (open_browser env plat sp url).1 ∧
        Action.webbrowserOpen url ∈ (open_browser env plat sp url).1) := by
  constructor
  · intro h
    rw [open_browser]
    by_cases hn : pyLower (envGet env "FASTHTML_BROWSER" "default") = "none"
    · simp [hn]
    · by_cases ha : pyLower (envGet env "FASTHTML_BROWSER" "default") = "app"
      · by_cases hp : plat = "linux"
        · rcases htb : tryBrowsers sp (browsers url) with ⟨as, r⟩
          rcases tryBrowsers_no_raise sp h (browsers url) with hr | hr <;>
            rw [htb] at hr <;> simp at hr <;> simp [hn, ha, hp, htb, hr]
        · simp [hn, ha, hp]
      · simp [hn, ha]
  · intro hall hmode hplat
    have htb := tryBrowsers_all_fnf sp (browsers url) hall
    have hn : ¬(pyLower (envGet env "FASTHTML_BROWSER" "default") = "none") := by
      rw [hmode]; decide
    rw [open_browser]
    simp [hn, hmode, hplat, htb]

/-- Witness for C6 (amended): on a host with no candidate executables, the
launcher in app mode returns normally and falls back to the default
browser. -/
theorem C6_spawn_failures_witness :
    (open_browser envApp "linux" spNotFound urlC).2 = Outcome.returned ∧
    Action.webbrowserOpen urlC ∈ (open_browser envApp "linux" spNotFound urlC).1 := by
  have h := (C6_spawn_failures envApp "linux" spNotFound urlC).2
    (fun cmd _ => rfl) (by decide) rfl
  exact ⟨h.1, h.2.2⟩

/-- Counterexample to C7 as stated: with every candidate failing to spawn
(all raising `PermissionError`), the launcher does *not* fall through to
default-browser behavior — it raises at the first candidate and never calls
`webbrowser.open`. -/
theorem C7_app_mode_counterexample :
    (∀ cmd ∈ browsers urlC, spBoom cmd ≠ SpawnResult.ok) ∧
    (open_browser envApp "linux" spBoom urlC).2 = Outcome.raised "PermissionError" ∧
    Action.printLine ("Opening in browser at " ++ urlC)
      ∉ (open_browser envApp "linux" spBoom urlC).1 := by
  refine ⟨fun cmd _ => by simp [spBoom], by decide, by decide⟩

/-- C7 (amended): in `app` mode the launcher tries the fixed ordered list
google-chrome, chromium, firefox; the first candidate whose spawn succeeds
wins and ends the procedure; a candidate raising `FileNotFoundError` is
silently skipped; if every candidate fails with `FileNotFoundError` — though
not under other spawn exceptions, which propagate — the launcher falls
through to default-browser behavior, as it does unconditionally on
non-Linux platforms. -/
theorem C7_app_mode (env : Env) (sp : List String → SpawnResult) (url : String)
    (hmode : pyLower (envGet env "FASTHTML_BROWSER" "default") = "app") :
    browsers url
      = [ ["google-chrome", "--app=" ++ url],
          ["chromium", "--app=" ++ url],
          ["firefox", "--new-window", url] ] ∧
    (∀ (cs : List (List String)) (cmd : List String), sp cmd = SpawnResult.ok →
        tryBrowsers sp (cmd :: cs) = ([Action.trySpawn cmd], LoopResult.launched)) ∧
    (∀ (cs : List (List String)) (cmd : List String),
        sp cmd = SpawnResult.fileNotFound →
        tryBrowsers sp (cmd :: cs)
          = (Action.trySpawn cmd :: (tryBrowsers sp cs).1, (tryBrowsers sp cs).2)) ∧
    ((∀ cmd ∈ browsers url, sp cmd = SpawnResult.fileNotFound) →
        open_browser env "linux" sp url
          = (Action.printLine ("Opening in app mode at " ++ url)
              :: (browsers url).map Action.trySpawn
              ++ [ Action.printLine ("Opening in browser at " ++ url),
                   Action.webbrowserOpen url ],
             Outcome.returned)) ∧
    (∀ plat : String, plat ≠ "linux" →
        open_browser env plat sp url
          = ([ Action.printLine ("Opening in app mode at " ++ url),
               Action.printLine ("Opening in browser at " ++ url),
               Action.webbrowserOpen url ],
             Outcome.returned)) := by
  have hn : ¬(pyLower (envGet env "FASTHTML_BROWSER" "default") = "none") := by
    rw [hmode]; decide
  refine ⟨rfl, ?_, ?_, ?_, ?_⟩
  · intro cs cmd h
    simp [tryBrowsers, h]
  · intro cs cmd h
    simp [tryBrowsers, h]
  · intro hall
    have htb := tryBrowsers_all_fnf sp (browsers url) hall
    rw [open_browser]
    simp [hn, hmode, htb]
  · intro plat hplat
    rw [open_browser]
    simp [hn, hmode, hplat]

/-- Witness for C7 (amended): with all three candidates missing, the app-mode
launcher on Linux attempts each in order and then opens the default
browser. -/
theorem C7_app_mode_witness :
    open_browser envApp "linux" spNotFound urlC
      = ([ Action.printLine ("Opening in app mode at " ++ urlC),
           Action.trySpawn ["google-chrome", "--app=" ++ urlC],
           Action.trySpawn ["chromium", "--app=" ++ urlC],
           Action.trySpawn ["firefox", "--new-window", urlC],
           Action.printLine ("Opening in browser at " ++ urlC),
           Action.webbrowserOpen urlC ],
         Outcome.returned) := by
  have h := (C7_app_mode envApp spNotFound urlC (by decide)).2.2.2.1 (fun cmd _ => rfl)
  simpa [browsers] using h

/-- C8: with `FASTHTML_BROWSER=none`, the launcher spawns no browser
subprocess and performs no default-browser open; it prints the server URL
and returns. -/
theorem C8_browser_none (env : Env) (plat : String)
    (sp : List String → SpawnResult) (url : String)
    (h : env "FASTHTML_BROWSER" = some "none") :
    open_browser env plat sp url
      = ([ Action.printLine ("Server running at " ++ url),
           Action.printLine "Browser auto-open disabled. Please open manually." ],
         Outcome.returned) ∧
    (∀ cmd : List String, Action.trySpawn cmd ∉ (open_browser env plat sp url).1) ∧
    (∀ u : String, Action.webbrowserOpen u ∉ (open_browser env plat sp url).1) ∧
    Action.printLine ("Server running at " ++ url) ∈ (open_browser env plat sp url).1 := by
  have hm : pyLower (envGet env "FASTHTML_BROWSER" "default") = "none" := by
    simp [envGet, h]
    decide
  have he : open_browser env plat sp url
      = ([ Action.printLine ("Server running at " ++ url),
           Action.printLine "Browser auto-open disabled. Please open manually." ],
         Outcome.returned) := by
    rw [open_browser]
    simp [hm]
  refine ⟨he, ?_, ?_, ?_⟩
  · intro cmd; rw [he]; simp
  · intro u; rw [he]; simp
  · rw [he]; simp

/-- Witness for C8 at a concrete environment. -/
theorem C8_browser_none_witness :
    open_browser envNoneVar "linux" spNotFound urlC
      = ([ Action.printLine ("Server running at " ++ urlC),
           Action.printLine "Browser auto-open disabled. Please open manually." ],
         Outcome.returned) :=
  (C8_browser_none envNoneVar "linux" spNotFound urlC rfl).1

/-- C10: the `FASTHTML_BROWSER` value is lowercased before comparison, so
mode selection is case-insensitive: any two environments whose values agree
up to case make `open_browser` behave identically. -/
theorem C10_mode_case_insensitive (env1 env2 : Env) (plat : String)
    (sp : List String → SpawnResult) (url : String)
    (h : pyLower (envGet env1 "FASTHTML_BROWSER" "default")
      = pyLower (envGet env2 "FASTHTML_BROWSER" "default")) :
    open_browser env1 plat sp url = open_browser env2 plat sp url := by
  rw [open_browser, open_browser, h]

/-- Witness for C10: `FASTHTML_BROWSER=NONE` behaves exactly like
`FASTHTML_BROWSER=none`. -/
theorem C10_mode_case_insensitive_witness :
    open_browser envNONE "linux" spNotFound urlC
      = open_browser envNoneVar "linux" spNotFound urlC :=
  C10_mode_case_insensitive envNONE envNoneVar "linux" spNotFound urlC (by decide)

end FastHTMLApp
